import Mathlib

/-!
Formal model of the Kumon centre check-in backend (Express/PostgreSQL)
and proofs about its scan/notification flow, phone normalisation, SMS
template rendering, QR token handling, guardian linking and daily stats.

Conventions of the embedding:
* JavaScript strings are modelled as `String` or `List Char`; `\d` in the
  source regexes is ASCII `[0-9]`.
* Timestamps are modelled as `Int` milliseconds since the epoch
  (`Date.getTime()`).
* Locale/timezone formatting (`Intl.DateTimeFormat`) and the timezone day
  projection performed by PostgreSQL (`(ts AT TIME ZONE tz)::date`) are
  modelled as oracle functions supplied to the operations (a `Clock`).
* Database tables are lists of rows; the SMS gateway is a function from
  the request payload to an optional list of per-message results (`none`
  models a thrown/failed HTTP call).
-/

namespace KumonSpec

/-! ## Phone normalisation

`toE164AU` appears twice in the source: in
`controllers/guardianController.js` (which first calls `.trim()`) and in
`controllers/importController.js` (which does not).  Both then strip every
character outside `[0-9+]`, and apply the same cascade of prefix rules. -/

def isAsciiDigit (c : Char) : Bool := 48 ≤ c.toNat && c.toNat ≤ 57

/-- The character class `[\d+]` (code 43 is the plus sign). -/
def isDigitOrPlus (c : Char) : Bool := isAsciiDigit c || c.toNat = 43

/-- The WhiteSpace/LineTerminator set recognised by JavaScript
`String.prototype.trim`. -/
def isJsWhitespace (c : Char) : Bool :=
  c.toNat = 9 || c.toNat = 10 || c.toNat = 11 || c.toNat = 12 ||
  c.toNat = 13 || c.toNat = 32 || c.toNat = 160 || c.toNat = 5760 ||
  (8192 ≤ c.toNat && c.toNat ≤ 8202) ||
  c.toNat = 8232 || c.toNat = 8233 || c.toNat = 8239 ||
  c.toNat = 8287 || c.toNat = 12288 || c.toNat = 65279

/-- JavaScript `String.prototype.trim` on a list of characters. -/
def jsTrim (s : List Char) : List Char :=
  ((s.dropWhile isJsWhitespace).reverse.dropWhile isJsWhitespace).reverse

/-- The regex `^4\d{8}$` from both copies of `toE164AU`. -/
def isAuMobileBare (s : List Char) : Bool :=
  match s with
  | '4' :: rest => rest.length = 8 && rest.all isAsciiDigit
  | _ => false

def plus61 : List Char := ['+', '6', '1']

/-- `toE164AU` from `controllers/guardianController.js`:
trim, strip `[^\d+]`, then the prefix cascade. -/
def toE164AU_guardian (input : List Char) : List Char :=
  let s := (jsTrim input).filter isDigitOrPlus
  if s = [] then []
  else
    let s2 := if s.head? = some '+' then s.tail else s
    if s2.take 2 = ['6', '1'] then plus61 ++ s2.drop 2
    else if s2.head? = some '0' then plus61 ++ s2.tail
    else if isAuMobileBare s2 then plus61 ++ s2
    else []

/-- `toE164AU` from `controllers/importController.js`: identical except
that the input is not trimmed before the `[^\d+]` strip. -/
def toE164AU_import (input : List Char) : List Char :=
  let s := input.filter isDigitOrPlus
  if s = [] then []
  else
    let s2 := if s.head? = some '+' then s.tail else s
    if s2.take 2 = ['6', '1'] then plus61 ++ s2.drop 2
    else if s2.head? = some '0' then plus61 ++ s2.tail
    else if isAuMobileBare s2 then plus61 ++ s2
    else []

/-! ### Lemmas about the phone normaliser -/

lemma jsWs_not_digitOrPlus {c : Char} (h : isJsWhitespace c = true) :
    isDigitOrPlus c = false := by
  simp only [isJsWhitespace, Bool.or_eq_true, Bool.and_eq_true, decide_eq_true_eq] at h
  simp only [isDigitOrPlus, isAsciiDigit, Bool.or_eq_false_iff, Bool.and_eq_false_iff,
    decide_eq_false_iff_not]
  omega

lemma filter_dropWhile_jsWs (l : List Char) :
    (l.dropWhile isJsWhitespace).filter isDigitOrPlus = l.filter isDigitOrPlus := by
  induction l with
  | nil => rfl
  | cons a l ih =>
    by_cases ha : isJsWhitespace a = true
    · have hd := jsWs_not_digitOrPlus ha
      simp [List.dropWhile_cons, ha, List.filter_cons, hd, ih]
    · simp [List.dropWhile_cons, ha]

lemma filter_jsTrim (l : List Char) :
    (jsTrim l).filter isDigitOrPlus = l.filter isDigitOrPlus := by
  unfold jsTrim
  rw [List.filter_reverse, filter_dropWhile_jsWs, List.filter_reverse,
    List.reverse_reverse, filter_dropWhile_jsWs]

lemma toE164AU_copies_agree_fun (s : List Char) :
    toE164AU_guardian s = toE164AU_import s := by
  simp only [toE164AU_guardian, toE164AU_import, filter_jsTrim]

/-- Every non-empty output of `toE164AU_import` is `+61` followed by
characters from the class `[\d+]`. -/
lemma toE164AU_import_shape (s : List Char) :
    toE164AU_import s = [] ∨
    ∃ t, toE164AU_import s = plus61 ++ t ∧ ∀ c ∈ t, isDigitOrPlus c = true := by
  unfold toE164AU_import
  set f := s.filter isDigitOrPlus with hf
  have hall : ∀ c ∈ f, isDigitOrPlus c = true := fun c hc => List.of_mem_filter hc
  by_cases he : f = []
  · left; simp [he]
  · simp only [he, if_false]
    set s2 := if f.head? = some '+' then f.tail else f with hs2
    have hs2all : ∀ c ∈ s2, isDigitOrPlus c = true := by
      intro c hc
      apply hall
      rw [hs2] at hc
      by_cases hp : f.head? = some '+'
      · rw [if_pos hp] at hc; exact List.mem_of_mem_tail hc
      · rwa [if_neg hp] at hc
    by_cases h61 : s2.take 2 = ['6', '1']
    · right
      exact ⟨s2.drop 2, by simp [h61],
        fun c hc => hs2all c (List.drop_subset _ _ hc)⟩
    · by_cases h0 : s2.head? = some '0'
      · right
        refine ⟨s2.tail, ?_, fun c hc => hs2all c (List.tail_subset _ hc)⟩
        simp [h61, h0]
      · by_cases hm : isAuMobileBare s2 = true
        · right
          refine ⟨s2, ?_, hs2all⟩
          simp [h61, h0, hm]
        · left
          simp [h61, h0, hm]

lemma toE164AU_import_idem (s : List Char) (h : toE164AU_import s ≠ []) :
    toE164AU_import (toE164AU_import s) = toE164AU_import s := by
  rcases toE164AU_import_shape s with he | ⟨t, ht, hall⟩
  · exact absurd he h
  · rw [ht]
    have hallY : ∀ c ∈ plus61 ++ t, isDigitOrPlus c = true := by
      intro c hc
      rcases List.mem_append.mp hc with h1 | h2
      · rcases h1 with _ | ⟨_, _ | ⟨_, _ | ⟨_, h⟩⟩⟩ <;> first | rfl | cases h
      · exact hall c h2
    have hfilter : (plus61 ++ t).filter isDigitOrPlus = plus61 ++ t :=
      List.filter_eq_self.mpr hallY
    unfold toE164AU_import
    rw [hfilter]
    simp [plus61]

/-- C9 — the two copies of `toE164AU` compute the same function; every
output is empty or starts with `+61`; the function is idempotent on
non-empty outputs. -/
theorem C9_toE164AU_copies_agree :
    (∀ s : List Char, toE164AU_guardian s = toE164AU_import s) ∧
    (∀ s : List Char,
      toE164AU_guardian s = [] ∨ (toE164AU_guardian s).take 3 = plus61) ∧
    (∀ s : List Char, toE164AU_guardian s ≠ [] →
      toE164AU_guardian (toE164AU_guardian s) = toE164AU_guardian s) := by
  refine ⟨toE164AU_copies_agree_fun, ?_, ?_⟩
  · intro s
    rcases toE164AU_import_shape s with he | ⟨t, ht, _⟩
    · left; rw [toE164AU_copies_agree_fun, he]
    · right; rw [toE164AU_copies_agree_fun, ht]; rfl
  · intro s h
    have hi : toE164AU_import s ≠ [] := by
      rwa [toE164AU_copies_agree_fun] at h
    calc toE164AU_guardian (toE164AU_guardian s)
        = toE164AU_import (toE164AU_guardian s) := toE164AU_copies_agree_fun _
      _ = toE164AU_import (toE164AU_import s) := by rw [toE164AU_copies_agree_fun s]
      _ = toE164AU_import s := toE164AU_import_idem s hi
      _ = toE164AU_guardian s := (toE164AU_copies_agree_fun s).symm

/-- Witness for C9 at the concrete input `"0436 536 668"`. -/
theorem C9_toE164AU_witness :
    toE164AU_guardian ("0436 536 668".data) = toE164AU_import ("0436 536 668".data) ∧
    toE164AU_guardian ("0436 536 668".data) ≠ [] ∧
    toE164AU_guardian (toE164AU_guardian ("0436 536 668".data)) =
      toE164AU_guardian ("0436 536 668".data) :=
  ⟨C9_toE164AU_copies_agree.1 _, by decide,
    C9_toE164AU_copies_agree.2.2 _ (by decide)⟩

/-! ## SMS template rendering (`utils/smsRenderer.js`, `renderSmsTemplate`)

The renderer takes a template string and a context, computes a token map
and replaces every `\x7btoken\x7d` (regex `\{([^}]+)\}`) with the map
value, leaving unmatched tokens intact, and trims the result.  The
`Intl.DateTimeFormat` output for `now` in the timezone is supplied as the
pre-formatted `timeStr` / `dateStr` oracle fields of the context.  The
JavaScript property read `map[key]` first finds the literal's own keys
and then traverses the prototype chain: for a plain object literal the
inherited `Object.prototype` members (`toString`, `constructor`,
`__proto__`, ...) are found, are not nullish, and so are substituted by
`map[key] ?? m` after string coercion by `String.replace`. -/

/-- `String.prototype.toUpperCase()` (ASCII mapping, as in the data this
code handles). -/
def sToUpper (s : String) : String := ⟨s.data.map Char.toUpper⟩

structure RenderCtx where
  firstName : String
  lastName : String
  studentId : String
  scanType : String
  timeStr : String
  dateStr : String
  centre : String
  timeZone : String
  deriving Repr, DecidableEq

/-- `[first, last].filter(Boolean).join(" ").trim() || "Student"`. -/
def jsFullName (first last : String) : String :=
  if (jsTrim (String.intercalate " " ([first, last].filter (fun p => p ≠ ""))).data) = []
  then "Student"
  else ⟨jsTrim (String.intercalate " " ([first, last].filter (fun p => p ≠ ""))).data⟩

/-- The `map` object literal of `renderSmsTemplate`, in source order. -/
def tokenMap (ctx : RenderCtx) : List (String × String) :=
  [("student.firstName", if ctx.firstName = "" then "Student" else ctx.firstName),
   ("student.lastName", ctx.lastName),
   ("student.fullName", jsFullName ctx.firstName ctx.lastName),
   ("student.id", ctx.studentId),
   ("type", sToUpper ctx.scanType),
   ("time", ctx.timeStr),
   ("date", ctx.dateStr),
   ("center.name", ctx.centre),
   ("centre.name", ctx.centre),
   ("timezone", ctx.timeZone)]

/-- The members a plain object literal inherits from `Object.prototype`
(ECMA-262 including the Annex B legacy accessors), paired with the string
coercion `String.replace` applies when `map[key] ?? m` yields them (V8 /
Node rendering of native functions, and `[object Object]` for the
`__proto__` accessor's result). -/
def objectProtoMembers : List (String × String) :=
  [("constructor", "function Object() \x7b [native code] \x7d"),
   ("hasOwnProperty", "function hasOwnProperty() \x7b [native code] \x7d"),
   ("isPrototypeOf", "function isPrototypeOf() \x7b [native code] \x7d"),
   ("propertyIsEnumerable",
     "function propertyIsEnumerable() \x7b [native code] \x7d"),
   ("toLocaleString", "function toLocaleString() \x7b [native code] \x7d"),
   ("toString", "function toString() \x7b [native code] \x7d"),
   ("valueOf", "function valueOf() \x7b [native code] \x7d"),
   ("__proto__", "[object Object]"),
   ("__defineGetter__", "function __defineGetter__() \x7b [native code] \x7d"),
   ("__defineSetter__", "function __defineSetter__() \x7b [native code] \x7d"),
   ("__lookupGetter__", "function __lookupGetter__() \x7b [native code] \x7d"),
   ("__lookupSetter__", "function __lookupSetter__() \x7b [native code] \x7d")]

/-- `map[key]` on the object literal: own properties first, then the
inherited `Object.prototype` members. -/
def lookupToken (ctx : RenderCtx) (key : String) : Option String :=
  match (tokenMap ctx).find? (fun kv => kv.1 = key) with
  | some kv => some kv.2
  | none => (objectProtoMembers.find? (fun kv => kv.1 = key)).map (fun kv => kv.2)

/-- One step of the regex `\{([^}]+)\}`: given the characters after a `{`,
return the (non-empty) run of non-`\x7d` characters and the characters
after the closing `\x7d`, if the closing brace exists. -/
def braceSplit (rest : List Char) : Option (List Char × List Char) :=
  let key := rest.takeWhile (fun d => d ≠ '}')
  let rem := rest.dropWhile (fun d => d ≠ '}')
  if key = [] then none
  else if rem = [] then none else some (key, rem.tail)

lemma dropWhile_head_false {α : Type} {p : α → Bool} :
    ∀ {l : List α} {c : α} {cs : List α}, l.dropWhile p = c :: cs → p c = false := by
  intro l
  induction l with
  | nil => intro c cs h; cases h
  | cons a l ih =>
    intro c cs h
    rw [List.dropWhile_cons] at h
    by_cases hp : p a = true
    · rw [if_pos hp] at h; exact ih h
    · rw [if_neg hp] at h
      injection h with h1 _
      subst h1
      simpa using hp

lemma braceSplit_some {rest key after : List Char}
    (h : braceSplit rest = some (key, after)) :
    key ≠ [] ∧ rest = key ++ '}' :: after := by
  unfold braceSplit at h
  by_cases hk : rest.takeWhile (fun d => decide (d ≠ '}')) = []
  · rw [if_pos hk] at h; cases h
  · rw [if_neg hk] at h
    cases hd : rest.dropWhile (fun d => decide (d ≠ '}')) with
    | nil => rw [hd] at h; simp at h
    | cons c cs =>
      rw [hd] at h
      simp only [List.cons_ne_nil, if_false, List.tail_cons, Option.some.injEq,
        Prod.mk.injEq] at h
      obtain ⟨h1, h2⟩ := h
      have hc : c = '}' := by
        have := dropWhile_head_false hd
        simpa using this
      subst hc h1 h2
      refine ⟨hk, ?_⟩
      conv_lhs => rw [← List.takeWhile_append_dropWhile
        (p := fun d => decide (d ≠ '}')) (l := rest)]
      rw [hd]

lemma braceSplit_length {rest key after : List Char}
    (h : braceSplit rest = some (key, after)) : after.length < rest.length := by
  obtain ⟨hk, he⟩ := braceSplit_some h
  rw [he]
  simp only [List.length_append, List.length_cons]
  omega

/-- The regex-replace loop of `renderSmsTemplate`, with explicit fuel so
that the recursion is structural (the fuel strictly dominates the length
of the remaining input, so it is never exhausted when started at the
input length):
`String(text).replace(/\{([^}]+)\}/g, (m, key) => map[key] ?? m)`. -/
def scanTokensFuel (lk : String → Option String) : Nat → List Char → List Char
  | 0, l => l
  | _ + 1, [] => []
  | fuel + 1, c :: rest =>
    if c = '{' then
      match braceSplit rest with
      | some (key, after) =>
        (match lk (String.mk key) with
         | some v => v.data
         | none => '{' :: key ++ ['}']) ++ scanTokensFuel lk fuel after
      | none => c :: scanTokensFuel lk fuel rest
    else c :: scanTokensFuel lk fuel rest

def scanTokens (lk : String → Option String) (l : List Char) : List Char :=
  scanTokensFuel lk l.length l

lemma scanTokensFuel_congr (lk : String → Option String) :
    ∀ (n m : Nat) (l : List Char), l.length ≤ n → l.length ≤ m →
      scanTokensFuel lk n l = scanTokensFuel lk m l := by
  intro n
  induction n with
  | zero =>
    intro m l hn _
    have : l = [] := List.length_eq_zero.mp (Nat.le_zero.mp hn)
    subst this
    cases m <;> rfl
  | succ n ih =>
    intro m l hn hm
    cases l with
    | nil => cases m <;> rfl
    | cons c rest =>
      cases m with
      | zero => simp at hm
      | succ m =>
        simp only [List.length_cons, Nat.succ_le_succ_iff] at hn hm
        show scanTokensFuel lk (n + 1) (c :: rest) = scanTokensFuel lk (m + 1) (c :: rest)
        simp only [scanTokensFuel]
        by_cases hc : c = '{'
        · rw [if_pos hc, if_pos hc]
          cases hb : braceSplit rest with
          | none => simp [ih m rest hn hm]
          | some p =>
            obtain ⟨key, after⟩ := p
            have hlen : after.length < rest.length := braceSplit_length hb
            simp [ih m after (by omega) (by omega)]
        · rw [if_neg hc, if_neg hc, ih m rest hn hm]

/-- `renderSmsTemplate` from `utils/smsRenderer.js`: token replacement
followed by the final `.trim()`. -/
def renderSmsTemplate (text : String) (ctx : RenderCtx) : String :=
  ⟨jsTrim (scanTokens (lookupToken ctx) text.data)⟩

/-! ### Lemmas about the renderer -/

lemma takeWhile_append_rb (tok post : List Char) (h : '}' ∉ tok) :
    (tok ++ '}' :: post).takeWhile (fun d => decide (d ≠ '}')) = tok := by
  induction tok with
  | nil => simp [List.takeWhile_cons]
  | cons a t ih =>
    have ha : a ≠ '}' := fun he => h (he ▸ List.mem_cons_self a t)
    simp only [List.cons_append, List.takeWhile_cons]
    rw [if_pos (by simpa using ha), ih (fun hm => h (List.mem_cons_of_mem a hm))]

lemma dropWhile_append_rb (tok post : List Char) (h : '}' ∉ tok) :
    (tok ++ '}' :: post).dropWhile (fun d => decide (d ≠ '}')) = '}' :: post := by
  induction tok with
  | nil => simp [List.dropWhile_cons]
  | cons a t ih =>
    have ha : a ≠ '}' := fun he => h (he ▸ List.mem_cons_self a t)
    simp only [List.cons_append, List.dropWhile_cons]
    rw [if_pos (by simpa using ha), ih (fun hm => h (List.mem_cons_of_mem a hm))]

lemma braceSplit_append (tok post : List Char) (h : '}' ∉ tok) (hne : tok ≠ []) :
    braceSplit (tok ++ '}' :: post) = some (tok, post) := by
  unfold braceSplit
  rw [takeWhile_append_rb tok post h, dropWhile_append_rb tok post h]
  simp [hne]

lemma scanTokens_nil (lk : String → Option String) : scanTokens lk [] = [] := rfl

lemma scanTokens_cons_not_lb (lk : String → Option String) (c : Char)
    (rest : List Char) (hc : c ≠ '{') :
    scanTokens lk (c :: rest) = c :: scanTokens lk rest := by
  show scanTokensFuel lk (rest.length + 1) (c :: rest) = _
  simp only [scanTokensFuel]
  rw [if_neg hc]
  rfl

lemma scanTokens_cons_lb (lk : String → Option String) (rest key after : List Char)
    (hb : braceSplit rest = some (key, after)) :
    scanTokens lk ('{' :: rest) =
      (((lk (String.mk key)).map String.data).getD ('{' :: key ++ ['}']))
        ++ scanTokens lk after := by
  have hlen := braceSplit_length hb
  show scanTokensFuel lk (rest.length + 1) ('{' :: rest) = _
  simp only [scanTokensFuel, if_true]
  rw [hb]
  show ((match lk (String.mk key) with
    | some v => v.data
    | none => '{' :: key ++ ['}']) ++ scanTokensFuel lk rest.length after) = _
  rw [scanTokensFuel_congr lk rest.length after.length after (Nat.le_of_lt hlen)
    (Nat.le_refl _)]
  cases lk (String.mk key) <;> simp [scanTokens]

/-- The replace loop splits around each well-formed `\x7btok\x7d`
occurrence: the prefix (free of `{`) is copied, the token is rewritten to
the map value (or left intact when unknown), and scanning continues after
the closing brace. -/
lemma scanTokens_decompose (lk : String → Option String)
    (pre tok post : List Char) (hpre : '{' ∉ pre) (ht1 : tok ≠ []) (ht2 : '}' ∉ tok) :
    scanTokens lk (pre ++ '{' :: (tok ++ '}' :: post)) =
      pre ++ ((((lk (String.mk tok)).map String.data).getD ('{' :: tok ++ ['}']))
        ++ scanTokens lk post) := by
  induction pre with
  | nil =>
    simp only [List.nil_append]
    rw [scanTokens_cons_lb lk _ tok post (braceSplit_append tok post ht2 ht1)]
  | cons a p ih =>
    have ha : a ≠ '{' := fun he => hpre (he ▸ List.mem_cons_self a p)
    simp only [List.cons_append]
    rw [scanTokens_cons_not_lb lk a _ ha, ih (fun hm => hpre (List.mem_cons_of_mem a hm))]
    simp

/-- The literal keys of the renderer's token map. -/
def knownTokenKeys : List String :=
  ["student.firstName", "student.lastName", "student.fullName", "student.id",
   "type", "time", "date", "center.name", "centre.name", "timezone"]

lemma tokenMap_keys (ctx : RenderCtx) :
    (tokenMap ctx).map Prod.fst = knownTokenKeys := rfl

/-- The property names a plain object literal inherits from
`Object.prototype`. -/
def protoKeys : List String := objectProtoMembers.map Prod.fst

lemma tokenMap_find?_eq_none (ctx : RenderCtx) (key : String)
    (hk : key ∉ knownTokenKeys) :
    (tokenMap ctx).find? (fun kv => kv.1 = key) = none := by
  apply List.find?_eq_none.mpr
  intro kv hkv h
  apply hk
  rw [← tokenMap_keys ctx]
  have : kv.1 = key := by simpa using h
  exact this ▸ List.mem_map_of_mem Prod.fst hkv

/-- A token that is neither an own key nor inherited resolves through the
prototype-chain read to the inherited-member lookup. -/
lemma lookupToken_not_own (ctx : RenderCtx) (key : String)
    (hk : key ∉ knownTokenKeys) :
    lookupToken ctx key =
      (objectProtoMembers.find? (fun kv => kv.1 = key)).map (fun kv => kv.2) := by
  unfold lookupToken
  rw [tokenMap_find?_eq_none ctx key hk]

lemma lookupToken_unknown (ctx : RenderCtx) (key : String)
    (hk : key ∉ knownTokenKeys) (hp : key ∉ protoKeys) :
    lookupToken ctx key = none := by
  rw [lookupToken_not_own ctx key hk]
  rw [List.find?_eq_none.mpr, Option.map_none']
  intro kv hkv h
  apply hp
  have : kv.1 = key := by simpa using h
  exact this ▸ List.mem_map_of_mem Prod.fst hkv

lemma jsTrim_eq_self {s : List Char}
    (hh : ∀ c, s.head? = some c → isJsWhitespace c = false)
    (hl : ∀ c, s.getLast? = some c → isJsWhitespace c = false) : jsTrim s = s := by
  unfold jsTrim
  have h1 : s.dropWhile isJsWhitespace = s := by
    cases s with
    | nil => rfl
    | cons a t => rw [List.dropWhile_cons, if_neg]; simp [hh a rfl]
  rw [h1]
  have h2 : s.reverse.dropWhile isJsWhitespace = s.reverse := by
    cases hr : s.reverse with
    | nil => rfl
    | cons a t =>
      rw [List.dropWhile_cons, if_neg]
      have hla : s.getLast? = some a := by
        rw [← List.head?_reverse, hr, List.head?_cons]
      simp [hl a hla]
  rw [h2, List.reverse_reverse]

lemma jsFullName_join (f l : String) (hf : f ≠ "") (hl : l ≠ "")
    (hwf : ∀ c ∈ f.data, isJsWhitespace c = false)
    (hwl : ∀ c ∈ l.data, isJsWhitespace c = false) :
    jsFullName f l = f ++ " " ++ l := by
  unfold jsFullName
  have hfilter : [f, l].filter (fun p => p ≠ "") = [f, l] := by
    simp [List.filter, hf, hl]
  rw [hfilter]
  have hpair : String.intercalate " " [f, l] = f ++ " " ++ l := rfl
  rw [hpair]
  have hfd : f.data ≠ [] := fun he => hf (by cases f; simp_all)
  have hld : l.data ≠ [] := fun he => hl (by cases l; simp_all)
  have hdata : (f ++ " " ++ l).data = f.data ++ (' ' :: l.data) := by
    cases f; cases l; simp [String.data]
  have htrim : jsTrim ((f ++ " " ++ l).data) = (f ++ " " ++ l).data := by
    apply jsTrim_eq_self
    · intro c hc
      rw [hdata, List.head?_append_of_ne_nil _ hfd] at hc
      exact hwf c (List.mem_of_mem_head? hc)
    · intro c hc
      rw [hdata] at hc
      have h2 : f.data ++ ' ' :: l.data = (f.data ++ [' ']) ++ l.data := by simp
      rw [h2, List.getLast?_append_of_ne_nil _ hld] at hc
      obtain ⟨hgl, hceq⟩ := List.mem_getLast?_eq_getLast hc
      subst hceq
      exact hwl _ (List.getLast_mem hgl)
  rw [htrim]
  rw [if_neg (by rw [hdata]; simp [hfd])]

/-- C5 amended — `renderSmsTemplate` replaces every well-formed
`\x7btoken\x7d` occurrence with the looked-up value and continues after
it (the final output additionally has outer whitespace trimmed); each of
the ten known tokens maps to its documented value; an unknown token is
left unchanged unless its name is an `Object.prototype` member inherited
by the map literal, in which case `map[key] ?? m` substitutes that
member's string coercion; `student.fullName` is the names joined by a
space, falling back to `"Student"` when both names are empty. -/
theorem C5_renderSmsTemplate_tokens :
    (∀ text ctx, renderSmsTemplate text ctx =
      ⟨jsTrim (scanTokens (lookupToken ctx) text.data)⟩) ∧
    (∀ (lk : String → Option String) (pre tok post : List Char),
      '{' ∉ pre → tok ≠ [] → '}' ∉ tok →
      scanTokens lk (pre ++ '{' :: (tok ++ '}' :: post)) =
        pre ++ ((((lk (String.mk tok)).map String.data).getD ('{' :: tok ++ ['}']))
          ++ scanTokens lk post)) ∧
    (∀ ctx : RenderCtx,
      lookupToken ctx "student.firstName" =
        some (if ctx.firstName = "" then "Student" else ctx.firstName) ∧
      lookupToken ctx "student.lastName" = some ctx.lastName ∧
      lookupToken ctx "student.fullName" =
        some (jsFullName ctx.firstName ctx.lastName) ∧
      lookupToken ctx "student.id" = some ctx.studentId ∧
      lookupToken ctx "type" = some (sToUpper ctx.scanType) ∧
      lookupToken ctx "time" = some ctx.timeStr ∧
      lookupToken ctx "date" = some ctx.dateStr ∧
      lookupToken ctx "center.name" = some ctx.centre ∧
      lookupToken ctx "centre.name" = some ctx.centre ∧
      lookupToken ctx "timezone" = some ctx.timeZone) ∧
    (∀ (ctx : RenderCtx) (key : String), key ∉ knownTokenKeys →
      lookupToken ctx key =
        (objectProtoMembers.find? (fun kv => kv.1 = key)).map (fun kv => kv.2)) ∧
    (∀ (ctx : RenderCtx) (key : String),
      key ∉ knownTokenKeys → key ∉ protoKeys → lookupToken ctx key = none) ∧
    jsFullName "" "" = "Student" ∧
    (∀ f l : String, f ≠ "" → l ≠ "" →
      (∀ c ∈ f.data, isJsWhitespace c = false) →
      (∀ c ∈ l.data, isJsWhitespace c = false) →
      jsFullName f l = f ++ " " ++ l) := by
  refine ⟨fun _ _ => rfl, scanTokens_decompose, ?_, lookupToken_not_own,
    lookupToken_unknown, by decide, jsFullName_join⟩
  intro ctx
  refine ⟨rfl, rfl, rfl, rfl, rfl, rfl, rfl, rfl, rfl, rfl⟩

/-- Sample context used for concrete witnesses. -/
def ctxEx : RenderCtx :=
  ⟨"Ada", "Lovelace", "7", "check_in", "7:04 pm AEST", "Fri, 15 Aug 2025",
   "Kumon North Hobart", "Australia/Hobart"⟩

/-- C5 — counterexample to the claim as stated: `\x7btoString\x7d` is not
a known token, yet it is not left unchanged: the property read
`map["toString"]` finds the inherited `Object.prototype.toString`, which
is not nullish, so `map[key] ?? m` substitutes its string coercion. -/
theorem C5_renderSmsTemplate_counterexample :
    ("toString" ∈ knownTokenKeys → False) ∧
    lookupToken ctxEx "toString" =
      some "function toString() \x7b [native code] \x7d" ∧
    renderSmsTemplate "\x7btoString\x7d" ctxEx =
      "function toString() \x7b [native code] \x7d" ∧
    renderSmsTemplate "\x7btoString\x7d" ctxEx ≠ "\x7btoString\x7d" :=
  ⟨by decide, by decide, by decide, by decide⟩

/-- Witness for C5: one known-token occurrence after a brace-free prefix
is substituted in place. -/
theorem C5_renderSmsTemplate_witness :
    '{' ∉ ("Hi ".data) ∧ ("student.fullName".data ≠ []) ∧
    '}' ∉ ("student.fullName".data) ∧
    scanTokens (lookupToken ctxEx)
      ("Hi ".data ++ '{' :: ("student.fullName".data ++ '}' :: "!".data)) =
      "Hi ".data ++
        ((((lookupToken ctxEx (String.mk "student.fullName".data)).map
            String.data).getD ('{' :: "student.fullName".data ++ ['}']))
          ++ scanTokens (lookupToken ctxEx) "!".data) :=
  ⟨by decide, by decide, by decide,
    C5_renderSmsTemplate_tokens.2.1 (lookupToken ctxEx) "Hi ".data
      "student.fullName".data "!".data (by decide) (by decide) (by decide)⟩

/-! ## QR token encoding and decoding

`controllers/qrController.js` encodes the bare `qr_code.token` string into
the QR image (`QRCode.toBuffer(token, ...)`).  The offline script
`scripts/generate-qr.js` instead renders `JSON.stringify(\x7b v: 1, token \x7d)`.
The scanner page (`src/pages/Scan.jsx`, `parseToken`) first tries
`JSON.parse` and accepts `o.token` when it is a non-empty string, falling
back to the trimmed raw text.  `JSON.parse` is modelled by a small JSON
parser (fuel-indexed structural recursion; `\uXXXX` escapes are not
modelled and make the parse fail, which no theorem below relies on). -/

inductive JVal where
  | jnull
  | jbool (b : Bool)
  | jnum
  | jstr (s : String)
  | jarr (elems : List JVal)
  | jobj (fields : List (String × JVal))

def jsonWs (c : Char) : Bool := c = ' ' || c = '\t' || c = '\n' || c = '\r'

def escChar (e : Char) : Option Char :=
  if e = '"' then some '"'
  else if e = '\\' then some '\\'
  else if e = '/' then some '/'
  else if e = 'b' then some (Char.ofNat 8)
  else if e = 'f' then some (Char.ofNat 12)
  else if e = 'n' then some '\n'
  else if e = 'r' then some '\r'
  else if e = 't' then some '\t'
  else none

/-- Parse the body of a JSON string after the opening quote; returns the
decoded content and the characters after the closing quote. -/
def parseStrRest : List Char → Option (List Char × List Char)
  | [] => none
  | c :: rest =>
    if c = '"' then some ([], rest)
    else if c = '\\' then
      match rest with
      | [] => none
      | e :: rest2 => do
          let ch ← escChar e
          let (s, r) ← parseStrRest rest2
          some (ch :: s, r)
    else if c.toNat < 32 then none
    else do
      let (s, r) ← parseStrRest rest
      some (c :: s, r)

/-- Consume one or more ASCII digits. -/
def digits1 : List Char → Option (List Char)
  | c :: rest => if isAsciiDigit c then some (rest.dropWhile isAsciiDigit) else none
  | [] => none

def parseIntPart : List Char → Option (List Char)
  | '0' :: rest => some rest
  | c :: rest => if isAsciiDigit c then some (rest.dropWhile isAsciiDigit) else none
  | [] => none

def parseFrac (cs : List Char) : Option (List Char) :=
  match cs with
  | '.' :: rest => digits1 rest
  | _ => some cs

def parseExp (cs : List Char) : Option (List Char) :=
  match cs with
  | 'e' :: rest =>
    (match rest with
     | '+' :: r => digits1 r
     | '-' :: r => digits1 r
     | r => digits1 r)
  | 'E' :: rest =>
    (match rest with
     | '+' :: r => digits1 r
     | '-' :: r => digits1 r
     | r => digits1 r)
  | _ => some cs

/-- Validate a JSON number starting at `cs`; returns the rest. -/
def parseNum (cs : List Char) : Option (List Char) := do
  let cs1 := match cs with
    | '-' :: r => r
    | r => r
  let r1 ← parseIntPart cs1
  let r2 ← parseFrac r1
  parseExp r2

mutual

def parseVal : Nat → List Char → Option (JVal × List Char)
  | 0, _ => none
  | fuel + 1, cs =>
    match cs.dropWhile jsonWs with
    | '{' :: rest =>
      (match rest.dropWhile jsonWs with
       | '}' :: r2 => some (.jobj [], r2)
       | _ => do
           let (fs, r) ← parseMembers fuel rest
           some (.jobj fs, r))
    | '[' :: rest =>
      (match rest.dropWhile jsonWs with
       | ']' :: r2 => some (.jarr [], r2)
       | _ => do
           let (vs, r) ← parseElems fuel rest
           some (.jarr vs, r))
    | '"' :: rest => do
        let (s, r) ← parseStrRest rest
        some (.jstr ⟨s⟩, r)
    | 't' :: 'r' :: 'u' :: 'e' :: r => some (.jbool true, r)
    | 'f' :: 'a' :: 'l' :: 's' :: 'e' :: r => some (.jbool false, r)
    | 'n' :: 'u' :: 'l' :: 'l' :: r => some (.jnull, r)
    | c :: rest =>
        if c = '-' || isAsciiDigit c then do
          let r ← parseNum (c :: rest)
          some (.jnum, r)
        else none
    | [] => none
termination_by structural fuel => fuel

def parseMembers : Nat → List Char → Option (List (String × JVal) × List Char)
  | 0, _ => none
  | fuel + 1, cs =>
    match cs.dropWhile jsonWs with
    | '"' :: rest => do
        let (k, r1) ← parseStrRest rest
        match r1.dropWhile jsonWs with
        | ':' :: r2 => do
            let (v, r3) ← parseVal fuel r2
            (match r3.dropWhile jsonWs with
             | ',' :: r4 => do
                 let (fs, r5) ← parseMembers fuel r4
                 some ((String.mk k, v) :: fs, r5)
             | '}' :: r4 => some ([(String.mk k, v)], r4)
             | _ => none)
        | _ => none
    | _ => none
termination_by structural fuel => fuel

def parseElems : Nat → List Char → Option (List JVal × List Char)
  | 0, _ => none
  | fuel + 1, cs => do
      let (v, r) ← parseVal fuel cs
      match r.dropWhile jsonWs with
      | ',' :: r2 => do
          let (vs, r3) ← parseElems fuel r2
          some (v :: vs, r3)
      | ']' :: r2 => some ([v], r2)
      | _ => none
termination_by structural fuel => fuel

end

/-- `JSON.parse`: parse one value and require only whitespace after it. -/
def jsonParse (s : String) : Option JVal :=
  match parseVal (s.data.length + 2) s.data with
  | some (v, rest) => if rest.dropWhile jsonWs = [] then some v else none
  | none => none

/-- JavaScript property read `o.token` on a parsed JSON object (later
duplicate keys overwrite earlier ones). -/
def jObjLookup (fields : List (String × JVal)) (k : String) : Option JVal :=
  (fields.reverse.find? (fun kv => kv.1 = k)).map (fun kv => kv.2)

/-- Fallback of `parseToken`: `raw && raw.trim() ? raw.trim() : null`. -/
def parseTokenFallback (raw : String) : Option String :=
  if raw ≠ "" ∧ (⟨jsTrim raw.data⟩ : String) ≠ "" then some ⟨jsTrim raw.data⟩
  else none

/-- `parseToken` from `src/pages/Scan.jsx`. -/
def parseToken (raw : String) : Option String :=
  match jsonParse raw with
  | some (.jobj fields) =>
    (match jObjLookup fields "token" with
     | some (.jstr t) => if t ≠ "" then some t else parseTokenFallback raw
     | _ => parseTokenFallback raw)
  | _ => parseTokenFallback raw

/-- The text encoded into the QR image by `generateQRCodes` /
`downloadQrPng` in `controllers/qrController.js`: the bare token. -/
def controllerQrText (token : String) : String := token

/-- The text rendered by `scripts/generate-qr.js`:
`JSON.stringify(\x7b v: 1, token: r.token \x7d)` (for tokens containing no
character that `JSON.stringify` escapes). -/
def scriptQrPayloadText (token : String) : String :=
  "\x7b\"v\":1,\"token\":\"" ++ token ++ "\"\x7d"

/-! ### Lemmas about QR token decoding -/

lemma parseStrRest_cons (c : Char) (rest : List Char) :
    parseStrRest (c :: rest) =
      if c = '"' then some ([], rest)
      else if c = '\\' then
        (match rest with
         | [] => none
         | e :: rest2 =>
           (escChar e).bind (fun ch =>
             (parseStrRest rest2).bind (fun p =>
               match p with | (s, r) => some (ch :: s, r))))
      else if c.toNat < 32 then none
      else (parseStrRest rest).bind (fun p =>
        match p with | (s, r) => some (c :: s, r)) := by
  rw [parseStrRest.eq_def]
  rfl

lemma parseStrRest_append (tok rest : List Char) (hq : '"' ∉ tok)
    (hbs : '\\' ∉ tok) (hctl : ∀ c ∈ tok, 32 ≤ c.toNat) :
    parseStrRest (tok ++ '"' :: rest) = some (tok, rest) := by
  induction tok with
  | nil => simp [parseStrRest_cons]
  | cons a t ih =>
    have ha1 : a ≠ '"' := fun he => hq (he ▸ List.mem_cons_self a t)
    have ha2 : a ≠ '\\' := fun he => hbs (he ▸ List.mem_cons_self a t)
    have ha3 : ¬a.toNat < 32 := by
      have := hctl a (List.mem_cons_self a t); omega
    rw [List.cons_append, parseStrRest_cons, if_neg ha1, if_neg ha2, if_neg ha3,
      ih (fun hm => hq (List.mem_cons_of_mem a hm))
        (fun hm => hbs (List.mem_cons_of_mem a hm))
        (fun c hc => hctl c (List.mem_cons_of_mem a hc))]
    rfl

lemma jsonParse_script_payload (tok : String) (hq : '"' ∉ tok.data)
    (hbs : '\\' ∉ tok.data) (hctl : ∀ c ∈ tok.data, 32 ≤ c.toNat) :
    jsonParse (scriptQrPayloadText tok) =
      some (.jobj [("v", .jnum), ("token", .jstr tok)]) := by
  have key := parseStrRest_append tok.data ['}'] hq hbs hctl
  obtain ⟨d⟩ := tok
  have hdata : (scriptQrPayloadText ⟨d⟩).data =
      '{' :: '"' :: 'v' :: '"' :: ':' :: '1' :: ',' :: '"' :: 't' :: 'o' :: 'k'
        :: 'e' :: 'n' :: '"' :: ':' :: '"' :: (d ++ ['"', '}']) := by
    show (("\x7b\"v\":1,\"token\":\"".data ++ d) ++ "\"\x7d".data) = _
    simp
  have hv : ∀ g : Nat, parseVal (g + 1) ('"' :: (d ++ ['"', '}'])) =
      some (.jstr ⟨d⟩, ['}']) := by
    intro g
    rw [parseVal]
    simp [List.dropWhile_cons, jsonWs, key]
  have hnum : ∀ g : Nat, parseVal (g + 2)
      ('1' :: ',' :: '"' :: 't' :: 'o' :: 'k' :: 'e' :: 'n' :: '"' :: ':' :: '"'
        :: (d ++ ['"', '}'])) = some (.jnum,
        ',' :: '"' :: 't' :: 'o' :: 'k' :: 'e' :: 'n' :: '"' :: ':' :: '"'
          :: (d ++ ['"', '}'])) := by
    intro g
    show parseVal ((g + 1) + 1) _ = _
    rw [parseVal]
    simp [List.dropWhile_cons, jsonWs, parseNum, parseIntPart, parseFrac,
      parseExp, digits1, isAsciiDigit]
  have hm2 : ∀ g : Nat, parseMembers (g + 2)
      ('"' :: 't' :: 'o' :: 'k' :: 'e' :: 'n' :: '"' :: ':' :: '"'
        :: (d ++ ['"', '}'])) = some ([("token", .jstr ⟨d⟩)], []) := by
    intro g
    show parseMembers ((g + 1) + 1) _ = _
    rw [parseMembers]
    simp [List.dropWhile_cons, jsonWs, parseStrRest_cons, hv g]
  have hm1 : ∀ g : Nat, parseMembers (g + 3)
      ('"' :: 'v' :: '"' :: ':' :: '1' :: ',' :: '"' :: 't' :: 'o' :: 'k' :: 'e'
        :: 'n' :: '"' :: ':' :: '"' :: (d ++ ['"', '}'])) =
      some ([("v", .jnum), ("token", .jstr ⟨d⟩)], []) := by
    intro g
    show parseMembers ((g + 2) + 1) _ = _
    rw [parseMembers]
    simp [List.dropWhile_cons, jsonWs, parseStrRest_cons, hnum g, hm2 g]
  have hval : ∀ g : Nat, parseVal (g + 4)
      ('{' :: '"' :: 'v' :: '"' :: ':' :: '1' :: ',' :: '"' :: 't' :: 'o' :: 'k'
        :: 'e' :: 'n' :: '"' :: ':' :: '"' :: (d ++ ['"', '}'])) =
      some (.jobj [("v", .jnum), ("token", .jstr ⟨d⟩)], []) := by
    intro g
    show parseVal ((g + 3) + 1) _ = _
    rw [parseVal]
    simp [List.dropWhile_cons, jsonWs, hm1 g]
  unfold jsonParse
  rw [hdata]
  rw [show ('{' :: '"' :: 'v' :: '"' :: ':' :: '1' :: ',' :: '"' :: 't' :: 'o'
      :: 'k' :: 'e' :: 'n' :: '"' :: ':' :: '"' :: (d ++ ['"', '}'])).length + 2
      = ((d ++ ['"', '}']).length + 14) + 4 from by
    simp [List.length_cons, List.length_append]]
  rw [hval ((d ++ ['"', '}']).length + 14)]
  rfl

/-- C7 — counterexample to the claim as stated: `generateQRCodes` encodes
the bare token string (`QRCode.toBuffer(token, ...)`), so for a concrete
UUID token the encoded text is the token itself and does not parse as
JSON at all; it is not a UUID "embedded in a JSON payload". -/
theorem C7_qr_payload_counterexample :
    controllerQrText "3f8e4a12-9c01-4b7d-8e55-2a6f90c31d44" =
      "3f8e4a12-9c01-4b7d-8e55-2a6f90c31d44" ∧
    (jsonParse (controllerQrText "3f8e4a12-9c01-4b7d-8e55-2a6f90c31d44")).isSome
      = false :=
  ⟨rfl, by decide⟩

/-- C7 amended — the QR generated by the backend controller encodes the
bare opaque token (generated as a UUID, independent of the student's
database id); the offline script `generate-qr.js` instead encodes the
JSON payload `\x7b"v":1,"token":"…"\x7d`; the scanner's `parseToken`
recovers the token from either form. -/
theorem C7_qr_token_encoding (tok : String)
    (hjson : jsonParse tok = none) (htrim : jsTrim tok.data = tok.data)
    (hne : tok ≠ "") (hq : '"' ∉ tok.data) (hbs : '\\' ∉ tok.data)
    (hctl : ∀ c ∈ tok.data, 32 ≤ c.toNat) :
    controllerQrText tok = tok ∧
    parseToken (controllerQrText tok) = some tok ∧
    jsonParse (scriptQrPayloadText tok) =
      some (.jobj [("v", .jnum), ("token", .jstr tok)]) ∧
    parseToken (scriptQrPayloadText tok) = some tok := by
  have hpayload := jsonParse_script_payload tok hq hbs hctl
  refine ⟨rfl, ?_, hpayload, ?_⟩
  · show parseToken tok = some tok
    unfold parseToken
    rw [hjson]
    unfold parseTokenFallback
    rw [htrim]
    have heta : (⟨tok.data⟩ : String) = tok := rfl
    rw [heta, if_pos ⟨hne, hne⟩]
  · unfold parseToken
    rw [hpayload]
    simp [jObjLookup, hne]

/-- Witness for C7 at a concrete UUID token. -/
theorem C7_qr_token_witness :
    parseToken (controllerQrText "3f8e4a12-9c01-4b7d-8e55-2a6f90c31d44") =
      some "3f8e4a12-9c01-4b7d-8e55-2a6f90c31d44" ∧
    parseToken (scriptQrPayloadText "3f8e4a12-9c01-4b7d-8e55-2a6f90c31d44") =
      some "3f8e4a12-9c01-4b7d-8e55-2a6f90c31d44" := by
  have h := C7_qr_token_encoding "3f8e4a12-9c01-4b7d-8e55-2a6f90c31d44"
    (Option.not_isSome_iff_eq_none.mp (by decide)) (by decide) (by decide)
    (by decide) (by decide) (by decide)
  exact ⟨h.2.1, h.2.2.2⟩

/-! ## Scan flow data model (`controllers/scanController.js`)

Tables are lists of rows; `now()` is an `Int` timestamp passed in; the
PostgreSQL timezone day projection and the `Intl` formatters are oracle
functions in a `Clock`; the ClickSend gateway is a function from the
request items to `none` (thrown error, caught by `handleScan`) or the
per-message results. -/

structure SmsPolicy where
  sendOnCheckIn : Bool
  sendOnCheckOut : Bool
  deriving Repr, DecidableEq

structure OrgSettings where
  centerName : String
  timezone : String
  smsPolicy : SmsPolicy
  deriving Repr, DecidableEq

structure QrRow where
  id : Nat
  student_id : Nat
  token : String
  active : Bool
  deriving Repr, DecidableEq

structure Student where
  id : Nat
  first_name : String
  last_name : String
  status : String
  deriving Repr, DecidableEq

structure ScanMeta where
  recheck : Bool
  headcountOnly : Bool
  deriving Repr, DecidableEq

structure ScanEvent where
  id : Nat
  student_id : Nat
  qr_code_id : Nat
  type : String
  scanned_by : Option Nat
  scanned_at : Int
  was_duplicate : Bool
  meta : ScanMeta
  deriving Repr, DecidableEq

structure Guardian where
  id : Nat
  phone_e164 : String
  active : Bool
  phone_valid : Bool
  deriving Repr, DecidableEq

structure SGLink where
  student_id : Nat
  guardian_id : Nat
  is_primary : Bool
  deriving Repr, DecidableEq

structure MessageLog where
  id : Nat
  student_id : Nat
  scan_event_id : Nat
  template_key : Option String
  body_rendered : String
  created_by : Option Nat
  deriving Repr, DecidableEq

structure MessageRecipient where
  message_log_id : Nat
  guardian_id : Nat
  phone_e164 : String
  status : String
  gateway_message_id : Option String
  gateway_status : String
  deriving Repr, DecidableEq

structure DB where
  settings : OrgSettings
  qr_codes : List QrRow
  students : List Student
  scan_events : List ScanEvent
  guardians : List Guardian
  student_guardian : List SGLink
  message_templates : List (String × String)
  message_logs : List MessageLog
  message_recipients : List MessageRecipient
  nextScanId : Nat
  nextMessageLogId : Nat
  deriving Repr, DecidableEq

/-- Oracles for `(ts AT TIME ZONE tz)::date` (`dayOf`), `formatDateTimeTZ`
(`fmtDateTime`) and the renderer's `Intl` date/time strings. -/
structure Clock where
  dayOf : String → Int → Int
  fmtDateTime : String → Int → String
  fmtDate : String → Int → String
  fmtTime : String → Int → String

structure SmsItem where
  toPhone : String
  body : String
  deriving Repr, DecidableEq

structure GwMsg where
  toPhone : String
  message_id : String
  status : String
  deriving Repr, DecidableEq

structure ScanRequest where
  qrCode : String
  type : String
  messageOverride : Option String
  recheck : Bool
  headcountOnly : Bool
  deriving Repr, DecidableEq

structure RecipientDetail where
  phone : String
  status : String
  gateway_status : String
  gateway_message_id : Option String
  deriving Repr, DecidableEq

/-- The three JSON response shapes of `handleScan` (plus the error
responses), mirroring the fields each `res.json` carries. -/
inductive ScanOutcome where
  | badRequest (error : String)
  | notFound (error : String)
  | conflict (error : String) (lastAt : String)
  | okDuplicate (scanId : Nat) (sent : Nat) (recipients : List String)
      (headcountOnly : Bool)
  | okNoSms (scanId : Nat) (recipients : List String) (sent : Nat)
      (smsAllowed : Bool) (headcountOnly : Bool)
  | okSent (scanId : Nat) (messageLogId : Nat) (recipients : List String)
      (recipientsDetailed : List RecipientDetail) (sent : Nat)
      (smsAllowed : Bool) (headcountOnly : Bool)
      (overallGatewayStatus : String) (gatewayFailure : Bool)
      (gatewayFailureReason : Option String)
  deriving Repr, DecidableEq

def ScanOutcome.recipientsOf : ScanOutcome → List String
  | .okDuplicate _ _ rs _ => rs
  | .okNoSms _ rs _ _ _ => rs
  | .okSent _ _ rs _ _ _ _ _ _ _ => rs
  | _ => []

/-- `withinMinutes` from `scanController.js`. -/
def withinMinutes (d1 d2 mins : Int) : Bool := |d1 - d2| ≤ mins * 60 * 1000

/-- `ORDER BY scanned_at DESC LIMIT 1` over the rows matching `p`. -/
def latestScan (evs : List ScanEvent) (p : ScanEvent → Bool) : Option ScanEvent :=
  (evs.filter p).foldl (fun acc e =>
    match acc with
    | none => some e
    | some a => if e.scanned_at > a.scanned_at then some e else acc) none

/-- `getTodayOfType`: latest scan of this student and type whose
`scanned_at` falls on the same day as `now` in the org timezone. -/
def getTodayOfType (db : DB) (sid : Nat) (ty : String) (clock : Clock)
    (now : Int) : Option ScanEvent :=
  latestScan db.scan_events (fun e =>
    e.student_id = sid && e.type = ty &&
      clock.dayOf db.settings.timezone e.scanned_at =
        clock.dayOf db.settings.timezone now)

/-- The step-3 duplicate query: latest scan of this student and type. -/
def lastScanOfType (db : DB) (sid : Nat) (ty : String) : Option ScanEvent :=
  latestScan db.scan_events (fun e => e.student_id = sid && e.type = ty)

/-- Step-3 duplicate flag: skipped on recheck, else the latest same-type
scan within 2 minutes of now. -/
def duplicateFlag (db : DB) (req : ScanRequest) (sid : Nat) (ty : String)
    (now : Int) : Bool :=
  if req.recheck then false
  else match lastScanOfType db sid ty with
    | some e => withinMinutes now e.scanned_at 2
    | none => false

/-- Step 1: resolve the token through `qr_code` (active only) joined to
`student`. -/
def resolveQr (db : DB) (code : String) : Option (QrRow × Student) :=
  db.qr_codes.findSome? (fun q =>
    if q.token = code && q.active then
      (db.students.find? (fun s => s.id = q.student_id)).map (fun s => (q, s))
    else none)

/-- Step 5: guardians joined through `student_guardian` with
`active = TRUE AND phone_valid = TRUE` ((student_id, guardian_id) is
unique, so the join yields each guardian at most once). -/
def eligibleGuardians (db : DB) (sid : Nat) : List Guardian :=
  db.guardians.filter (fun g => g.active && g.phone_valid &&
    db.student_guardian.any (fun l => l.student_id = sid && l.guardian_id = g.id))

/-- Org SMS policy toggle for the scan type, suppressed by headcount-only
mode (`smsAllowedPolicy && !suppressByHeadcount`). -/
def smsAllowedFor (db : DB) (ty : String) (headcountOnly : Bool) : Bool :=
  (if ty = "CHECK_IN" then db.settings.smsPolicy.sendOnCheckIn
   else db.settings.smsPolicy.sendOnCheckOut) && !headcountOnly

def templateText (db : DB) (key : String) : Option String :=
  (db.message_templates.find? (fun kv => kv.1 = key)).map (fun kv => kv.2)

def defaultScanTemplate : String :=
  "{student.fullName} has an update at {time} on {date}."

def renderCtxFor (db : DB) (s : Student) (ty : String) (now : Int)
    (clock : Clock) : RenderCtx :=
  { firstName := s.first_name
    lastName := s.last_name
    studentId := toString s.id
    scanType := ty
    timeStr := clock.fmtTime db.settings.timezone now
    dateStr := clock.fmtDate db.settings.timezone now
    centre := if db.settings.centerName = "" then "Kumon Centre"
      else db.settings.centerName
    timeZone := if db.settings.timezone = "" then "Australia/Hobart"
      else db.settings.timezone }

def renderedScanBody (db : DB) (s : Student) (ty : String) (now : Int)
    (clock : Clock) : String :=
  renderSmsTemplate ((templateText db ty).getD defaultScanTemplate)
    (renderCtxFor db s ty now clock)

/-- `typeof messageOverride === 'string' && messageOverride.trim().length > 0`. -/
def hasOverrideReq (req : ScanRequest) : Bool :=
  match req.messageOverride with
  | some o => (⟨jsTrim o.data⟩ : String) ≠ ""
  | none => false

/-- Step 6: the message body (trimmed override sent as-is, otherwise the
rendered template for the scan type). -/
def smsBody (db : DB) (s : Student) (ty : String) (req : ScanRequest)
    (now : Int) (clock : Clock) : String :=
  match req.messageOverride with
  | some o =>
      if (⟨jsTrim o.data⟩ : String) ≠ "" then (⟨jsTrim o.data⟩ : String)
      else renderedScanBody db s ty now clock
  | none => renderedScanBody db s ty now clock

/-- The items posted to the gateway (step 8). -/
def scanSmsItems (db : DB) (s : Student) (sid : Nat) (ty : String)
    (req : ScanRequest) (now : Int) (clock : Clock) : List SmsItem :=
  (eligibleGuardians db sid).map (fun g =>
    { toPhone := g.phone_e164, body := smsBody db s ty req now clock })

/-- Step 9: one `message_recipient` row per guardian; `SENT` exactly when
the gateway status is `SUCCESS`, else `FAILED`. -/
def recipientRowFor (mlId : Nat) (results : List GwMsg) (g : Guardian) :
    MessageRecipient :=
  let found := results.find? (fun m => m.toPhone = g.phone_e164)
  let fallback := if results ≠ [] then "UNKNOWN" else "FAILED"
  let gatewayStatus := match found with
    | some m => if m.status ≠ "" then m.status else fallback
    | none => fallback
  let gatewayId : Option String := match found with
    | some m => if m.message_id ≠ "" then some m.message_id else none
    | none => none
  { message_log_id := mlId
    guardian_id := g.id
    phone_e164 := g.phone_e164
    status := if gatewayStatus = "SUCCESS" then "SENT" else "FAILED"
    gateway_message_id := gatewayId
    gateway_status := gatewayStatus }

/-- `[...new Set(xs)]`: deduplicate keeping first occurrences. -/
def dedupFirst (xs : List String) : List String :=
  xs.foldl (fun acc x => if x ∈ acc then acc else acc ++ [x]) []

/-- `handleScan` (`POST /scan`): returns the HTTP outcome, the final
database state, and the list of gateway calls made. -/
def handleScan (db : DB) (req : ScanRequest) (now : Int) (clock : Clock)
    (gw : List SmsItem → Option (List GwMsg)) (userId : Option Nat) :
    ScanOutcome × DB × List (List SmsItem) :=
  if req.qrCode = "" ∨ req.type = "" then
    (.badRequest "qrCode and type are required", db, [])
  else
    let TYPE := sToUpper req.type
    if ¬(TYPE = "CHECK_IN" ∨ TYPE = "CHECK_OUT") then
      (.badRequest "type must be CHECK_IN or CHECK_OUT", db, [])
    else
      let tz := db.settings.timezone
      let smsAllowed := smsAllowedFor db TYPE req.headcountOnly
      match resolveQr db req.qrCode with
      | none => (.notFound "QR code not found or inactive", db, [])
      | some (q, s) =>
        if s.status ≠ "ACTIVE" then (.badRequest "Student is inactive", db, [])
        else
          match (if req.recheck then none
                 else getTodayOfType db q.student_id TYPE clock now) with
          | some lastToday =>
            (.conflict
              (if TYPE = "CHECK_IN" then "already_checked_in_today"
               else "already_checked_out_today")
              (clock.fmtDateTime tz lastToday.scanned_at), db, [])
          | none =>
            let isDuplicate := duplicateFlag db req q.student_id TYPE now
            let newEv : ScanEvent :=
              { id := db.nextScanId
                student_id := q.student_id
                qr_code_id := q.id
                type := TYPE
                scanned_by := userId
                scanned_at := now
                was_duplicate := isDuplicate
                meta := { recheck := req.recheck
                          headcountOnly := req.headcountOnly } }
            let db1 := { db with scan_events := db.scan_events ++ [newEv]
                                 nextScanId := db.nextScanId + 1 }
            if isDuplicate then
              (.okDuplicate newEv.id 0 [] req.headcountOnly, db1, [])
            else
              let gs := eligibleGuardians db q.student_id
              if ¬(smsAllowed = true) ∨ gs = [] then
                (.okNoSms newEv.id [] 0 smsAllowed req.headcountOnly, db1, [])
              else
                let body := smsBody db s TYPE req now clock
                let templateKey : Option String :=
                  if hasOverrideReq req then none else some TYPE
                let newLog : MessageLog :=
                  { id := db1.nextMessageLogId
                    student_id := q.student_id
                    scan_event_id := newEv.id
                    template_key := templateKey
                    body_rendered := body
                    created_by := userId }
                let db2 := { db1 with
                  message_logs := db1.message_logs ++ [newLog]
                  nextMessageLogId := db1.nextMessageLogId + 1 }
                let items := scanSmsItems db s q.student_id TYPE req now clock
                let results := (gw items).getD []
                let newRecips := gs.map (recipientRowFor newLog.id results)
                let db3 := { db2 with
                  message_recipients := db2.message_recipients ++ newRecips }
                let details := newRecips.map (fun r =>
                  ({ phone := r.phone_e164, status := r.status,
                     gateway_status := r.gateway_status,
                     gateway_message_id := r.gateway_message_id } : RecipientDetail))
                let anyNonSuccess := details.any (fun r => r.gateway_status ≠ "SUCCESS")
                let insufficientCredit :=
                  details.any (fun r => r.gateway_status = "INSUFFICIENT_CREDIT")
                let failing := dedupFirst
                  ((details.filter (fun r => r.gateway_status ≠ "SUCCESS")).map
                    (fun r => r.gateway_status))
                (.okSent newEv.id newLog.id (gs.map (fun g => g.phone_e164))
                  details results.length smsAllowed req.headcountOnly
                  (if anyNonSuccess then "FAILURE" else "SUCCESS")
                  anyNonSuccess
                  (if anyNonSuccess then
                    some (if insufficientCredit then "INSUFFICIENT_CREDIT"
                      else (failing.head?.getD "UNKNOWN"))
                   else none),
                  db3, [items])

/-! ### Theorems about `handleScan` -/

lemma sToUpper_empty_iff (s : String) : sToUpper s = "" ↔ s = "" := by
  obtain ⟨d⟩ := s
  cases d with
  | nil => simp [sToUpper]
  | cons a t =>
    constructor
    · intro h
      have h2 : (a :: t).map Char.toUpper = [] := congrArg String.data h
      simp at h2
    · intro h
      have h2 : a :: t = ([] : List Char) := congrArg String.data h
      simp at h2

/-- C3 — a scan resolves the token only through an active `qr_code` row
joined to its student: no such row gives 404, an inactive student gives
400, and in both cases the database is unchanged and no gateway call is
made. -/
theorem C3_qr_resolution (db : DB) (req : ScanRequest) (now : Int)
    (clock : Clock) (gw : List SmsItem → Option (List GwMsg))
    (userId : Option Nat) (hq : req.qrCode ≠ "")
    (hty : sToUpper req.type = "CHECK_IN" ∨ sToUpper req.type = "CHECK_OUT") :
    (resolveQr db req.qrCode = none →
      handleScan db req now clock gw userId =
        (.notFound "QR code not found or inactive", db, [])) ∧
    (∀ q s, resolveQr db req.qrCode = some (q, s) → s.status ≠ "ACTIVE" →
      handleScan db req now clock gw userId =
        (.badRequest "Student is inactive", db, [])) := by
  have htne : req.type ≠ "" := by
    intro h
    rcases hty with h1 | h1 <;> rw [h, sToUpper] at h1 <;> simp at h1
  constructor
  · intro hnone
    rcases hty with h | h <;> simp [handleScan, hq, htne, h, hnone]
  · intro q s hsome hstat
    rcases hty with h | h <;> simp [handleScan, hq, htne, h, hsome, hstat]

/-- C2 — same-day guard: when not rechecking and a same-type scan already
exists on today's date in the org timezone, `handleScan` returns 409 with
the matching error string and the formatted timestamp of the latest such
scan, leaving the database unchanged and making no gateway call; with
`recheck = true` the guard is skipped and a new scan row is recorded. -/
lemma latestScan_isSome_iff (evs : List ScanEvent) (p : ScanEvent → Bool) :
    (latestScan evs p).isSome = true ↔ ∃ e ∈ evs, p e = true := by
  unfold latestScan
  have hgen : ∀ (l : List ScanEvent) (acc : Option ScanEvent),
      (l.foldl (fun acc e => match acc with
        | none => some e
        | some a => if e.scanned_at > a.scanned_at then some e else acc)
          acc).isSome = (acc.isSome || !l.isEmpty) := by
    intro l
    induction l with
    | nil => intro acc; simp
    | cons e t ih =>
      intro acc
      cases acc with
      | none => simp [List.foldl_cons, ih]
      | some a =>
        simp only [List.foldl_cons]
        by_cases he : e.scanned_at > a.scanned_at <;> simp [he, ih]
  rw [hgen]
  simp [List.isEmpty_iff, List.filter_eq_nil_iff]

theorem C2_same_day_guard (db : DB) (req : ScanRequest) (now : Int)
    (clock : Clock) (gw : List SmsItem → Option (List GwMsg))
    (userId : Option Nat) (q : QrRow) (s : Student)
    (hq : req.qrCode ≠ "")
    (hty : sToUpper req.type = "CHECK_IN" ∨ sToUpper req.type = "CHECK_OUT")
    (hres : resolveQr db req.qrCode = some (q, s))
    (hact : s.status = "ACTIVE") :
    (∀ e, req.recheck = false →
      getTodayOfType db q.student_id (sToUpper req.type) clock now = some e →
      handleScan db req now clock gw userId =
        (.conflict
          (if sToUpper req.type = "CHECK_IN" then "already_checked_in_today"
           else "already_checked_out_today")
          (clock.fmtDateTime db.settings.timezone e.scanned_at), db, [])) ∧
    (req.recheck = true →
      (handleScan db req now clock gw userId).2.1.scan_events =
        db.scan_events ++
          [{ id := db.nextScanId
             student_id := q.student_id
             qr_code_id := q.id
             type := sToUpper req.type
             scanned_by := userId
             scanned_at := now
             was_duplicate := false
             meta := { recheck := true, headcountOnly := req.headcountOnly } }]) ∧
    ((getTodayOfType db q.student_id (sToUpper req.type) clock now).isSome = true ↔
      ∃ e ∈ db.scan_events, e.student_id = q.student_id ∧
        e.type = sToUpper req.type ∧
        clock.dayOf db.settings.timezone e.scanned_at =
          clock.dayOf db.settings.timezone now) := by
  have htne : req.type ≠ "" := by
    intro h
    rcases hty with h1 | h1 <;> rw [h, sToUpper] at h1 <;> simp at h1
  refine ⟨?_, ?_, ?_⟩
  case refine_3 =>
    unfold getTodayOfType
    rw [latestScan_isSome_iff]
    simp [and_assoc]
  · intro e hnr htoday
    rcases hty with h | h <;> rw [h] at htoday <;>
      simp [handleScan, hq, htne, h, hres, hact, hnr, htoday]
  · intro hrk
    have hdup : duplicateFlag db req q.student_id (sToUpper req.type) now = false := by
      simp [duplicateFlag, hrk]
    rcases hty with h | h <;> rw [h] at hdup <;>
      (simp [handleScan, hq, htne, h, hres, hact, hrk, hdup]
       first
       | rfl
       | (split <;> simp [hrk, hdup]))

/-- C1 amended — duplicate suppression: when not rechecking, with no
same-type scan on today's local date (otherwise the same-day guard answers
409 first) but with the student's most recent same-type scan within 2
minutes of now, `handleScan` records a `scan_event` with
`was_duplicate = true` and responds `duplicate` with `sent = 0` and no
recipients, touching no message table and making no gateway call. -/
theorem C1_duplicate_scan (db : DB) (req : ScanRequest) (now : Int)
    (clock : Clock) (gw : List SmsItem → Option (List GwMsg))
    (userId : Option Nat) (q : QrRow) (s : Student) (last : ScanEvent)
    (hq : req.qrCode ≠ "")
    (hty : sToUpper req.type = "CHECK_IN" ∨ sToUpper req.type = "CHECK_OUT")
    (hres : resolveQr db req.qrCode = some (q, s))
    (hact : s.status = "ACTIVE")
    (hnr : req.recheck = false)
    (hlast : lastScanOfType db q.student_id (sToUpper req.type) = some last)
    (hwithin : withinMinutes now last.scanned_at 2 = true)
    (hnotoday : getTodayOfType db q.student_id (sToUpper req.type) clock now
      = none) :
    handleScan db req now clock gw userId =
      (.okDuplicate db.nextScanId 0 [] req.headcountOnly,
        { db with
          scan_events := db.scan_events ++
            [{ id := db.nextScanId
               student_id := q.student_id
               qr_code_id := q.id
               type := sToUpper req.type
               scanned_by := userId
               scanned_at := now
               was_duplicate := true
               meta := { recheck := false, headcountOnly := req.headcountOnly } }]
          nextScanId := db.nextScanId + 1 }, []) := by
  have htne : req.type ≠ "" := by
    intro h
    rcases hty with h1 | h1 <;> rw [h, sToUpper] at h1 <;> simp at h1
  have hdup : duplicateFlag db req q.student_id (sToUpper req.type) now = true := by
    simp [duplicateFlag, hnr, hlast, hwithin]
  rcases hty with h | h <;> rw [h] at hnotoday hdup <;>
    simp [handleScan, hq, htne, h, hres, hact, hnr, hnotoday, hdup]

/-- C6 — headcount-only scans: when the request passes the QR, same-day
and duplicate checks with `headcountOnly = true`, exactly one `scan_event`
is recorded with `meta.headcountOnly = true`, the message tables are
untouched, no gateway call is made, and the response reports `sent = 0`
with `smsAllowed = false` regardless of the org SMS policy. -/
theorem C6_headcount_only (db : DB) (req : ScanRequest) (now : Int)
    (clock : Clock) (gw : List SmsItem → Option (List GwMsg))
    (userId : Option Nat) (q : QrRow) (s : Student)
    (hq : req.qrCode ≠ "")
    (hty : sToUpper req.type = "CHECK_IN" ∨ sToUpper req.type = "CHECK_OUT")
    (hres : resolveQr db req.qrCode = some (q, s))
    (hact : s.status = "ACTIVE")
    (hhc : req.headcountOnly = true)
    (hguard : req.recheck = true ∨
      getTodayOfType db q.student_id (sToUpper req.type) clock now = none)
    (hdup : duplicateFlag db req q.student_id (sToUpper req.type) now = false) :
    handleScan db req now clock gw userId =
      (.okNoSms db.nextScanId [] 0 false true,
        { db with
          scan_events := db.scan_events ++
            [{ id := db.nextScanId
               student_id := q.student_id
               qr_code_id := q.id
               type := sToUpper req.type
               scanned_by := userId
               scanned_at := now
               was_duplicate := false
               meta := { recheck := req.recheck, headcountOnly := true } }]
          nextScanId := db.nextScanId + 1 }, []) := by
  have htne : req.type ≠ "" := by
    intro h
    rcases hty with h1 | h1 <;> rw [h, sToUpper] at h1 <;> simp at h1
  have hsms : smsAllowedFor db (sToUpper req.type) true = false := by
    simp [smsAllowedFor]
  rcases hty with h | h <;> rw [h] at hdup hsms <;>
    rcases hguard with hg | hg
  · simp [handleScan, hq, htne, h, hres, hact, hg, hdup, hsms, hhc]
  · rw [h] at hg
    simp [handleScan, hq, htne, h, hres, hact, hg, hdup, hsms, hhc]
  · simp [handleScan, hq, htne, h, hres, hact, hg, hdup, hsms, hhc]
  · rw [h] at hg
    simp [handleScan, hq, htne, h, hres, hact, hg, hdup, hsms, hhc]

lemma recipientRowFor_status_iff (mlId : Nat) (results : List GwMsg)
    (g : Guardian) :
    ((recipientRowFor mlId results g).status = "SENT" ↔
      (recipientRowFor mlId results g).gateway_status = "SUCCESS") ∧
    ((recipientRowFor mlId results g).status = "SENT" ∨
      (recipientRowFor mlId results g).status = "FAILED") := by
  have hgen : ∀ X : String,
      (((if X = "SUCCESS" then "SENT" else "FAILED") : String) = "SENT" ↔
        X = "SUCCESS") ∧
      (((if X = "SUCCESS" then "SENT" else "FAILED") : String) = "SENT" ∨
        ((if X = "SUCCESS" then "SENT" else "FAILED") : String) = "FAILED") := by
    intro X
    by_cases h : X = "SUCCESS" <;> simp [h]
  exact hgen _

/-- C4 — recipients of a non-duplicate, SMS-allowed scan: the response's
recipient list is exactly the phones of the student's guardians that are
linked, active and phone-valid; one `message_recipient` row is appended
per such guardian; each row stores status `SENT` exactly when its gateway
status is `SUCCESS` and `FAILED` otherwise. -/
theorem C4_recipient_rows (db : DB) (req : ScanRequest) (now : Int)
    (clock : Clock) (gw : List SmsItem → Option (List GwMsg))
    (userId : Option Nat) (q : QrRow) (s : Student)
    (hq : req.qrCode ≠ "")
    (hty : sToUpper req.type = "CHECK_IN" ∨ sToUpper req.type = "CHECK_OUT")
    (hres : resolveQr db req.qrCode = some (q, s))
    (hact : s.status = "ACTIVE")
    (hguard : req.recheck = true ∨
      getTodayOfType db q.student_id (sToUpper req.type) clock now = none)
    (hdup : duplicateFlag db req q.student_id (sToUpper req.type) now = false)
    (hsms : smsAllowedFor db (sToUpper req.type) req.headcountOnly = true) :
    (handleScan db req now clock gw userId).1.recipientsOf =
      (eligibleGuardians db q.student_id).map (fun g => g.phone_e164) ∧
    (handleScan db req now clock gw userId).2.1.message_recipients =
      db.message_recipients ++
        (eligibleGuardians db q.student_id).map
          (recipientRowFor db.nextMessageLogId
            ((gw (scanSmsItems db s q.student_id (sToUpper req.type) req now
              clock)).getD [])) ∧
    (∀ mlId results g,
      ((recipientRowFor mlId results g).status = "SENT" ↔
        (recipientRowFor mlId results g).gateway_status = "SUCCESS") ∧
      ((recipientRowFor mlId results g).status = "SENT" ∨
        (recipientRowFor mlId results g).status = "FAILED")) := by
  have htne : req.type ≠ "" := by
    intro h
    rcases hty with h1 | h1 <;> rw [h, sToUpper] at h1 <;> simp at h1
  refine ⟨?_, ?_, fun mlId results g => recipientRowFor_status_iff mlId results g⟩ <;>
    (rcases hty with h | h <;> rw [h] at hdup hsms <;>
      rcases hguard with hg | hg <;>
      (try rw [h] at hg) <;>
      by_cases hgs : eligibleGuardians db q.student_id = [] <;>
      simp [handleScan, hq, htne, h, hres, hact, hg, hdup, hsms, hgs,
        ScanOutcome.recipientsOf])

/-! ## Guardian linking (`linkGuardian` in `studentController.js` and
`maybeInsertGuardianLink` in `importController.js`)

Both call sites run the same statement:
`INSERT INTO student_guardian (student_id, guardian_id, is_primary)
 VALUES ... ON CONFLICT (student_id, guardian_id)
 DO UPDATE SET is_primary = EXCLUDED.is_primary`. -/

def upsertLink (links : List SGLink) (sid gid : Nat) (isPrimary : Bool) :
    List SGLink :=
  if links.any (fun l => l.student_id = sid && l.guardian_id = gid) then
    links.map (fun l =>
      if l.student_id = sid && l.guardian_id = gid then
        { l with is_primary := isPrimary }
      else l)
  else links ++ [{ student_id := sid, guardian_id := gid, is_primary := isPrimary }]

def countPair (links : List SGLink) (sid gid : Nat) : Nat :=
  (links.filter (fun l => l.student_id = sid && l.guardian_id = gid)).length

lemma countPair_map_set (t : List SGLink) (sid gid : Nat) (p : Bool) :
    countPair (t.map (fun l =>
      if l.student_id = sid && l.guardian_id = gid then
        { l with is_primary := p } else l)) sid gid = countPair t sid gid := by
  induction t with
  | nil => rfl
  | cons e t ih =>
    unfold countPair at ih ⊢
    by_cases h1 : e.student_id = sid <;> by_cases h2 : e.guardian_id = gid <;>
      simp_all [List.map_cons, List.filter_cons]

lemma countPair_upsertLink (links : List SGLink) (sid gid : Nat) (p : Bool)
    (h : countPair links sid gid ≤ 1) :
    countPair (upsertLink links sid gid p) sid gid = 1 := by
  unfold upsertLink
  by_cases ha : links.any (fun l => l.student_id = sid && l.guardian_id = gid) = true
  · rw [if_pos ha, countPair_map_set]
    have hpos : 1 ≤ countPair links sid gid := by
      rcases List.any_eq_true.mp ha with ⟨l, hl, hpl⟩
      have : l ∈ links.filter (fun l => l.student_id = sid && l.guardian_id = gid) :=
        List.mem_filter.mpr ⟨hl, hpl⟩
      have := List.length_pos.mpr (List.ne_nil_of_mem this)
      exact this
    omega
  · rw [if_neg ha]
    have hzero : countPair links sid gid = 0 := by
      unfold countPair
      rw [List.length_eq_zero, List.filter_eq_nil_iff]
      intro l hl
      intro hpl
      exact ha (List.any_eq_true.mpr ⟨l, hl, hpl⟩)
    unfold countPair
    rw [List.filter_append]
    unfold countPair at hzero
    rw [List.length_eq_zero] at hzero
    simp [hzero]

lemma upsertLink_is_primary (links : List SGLink) (sid gid : Nat) (p : Bool) :
    ∀ l ∈ upsertLink links sid gid p,
      l.student_id = sid → l.guardian_id = gid → l.is_primary = p := by
  intro l hl h1 h2
  unfold upsertLink at hl
  by_cases ha : links.any (fun l => l.student_id = sid && l.guardian_id = gid) = true
  · rw [if_pos ha] at hl
    rcases List.mem_map.mp hl with ⟨orig, horig, heq⟩
    by_cases ho : orig.student_id = sid ∧ orig.guardian_id = gid
    · rw [if_pos (by simp [ho.1, ho.2])] at heq
      rw [← heq]
    · rw [if_neg (by simpa using ho)] at heq
      subst heq
      exact absurd ⟨h1, h2⟩ ho
  · rw [if_neg ha] at hl
    rcases List.mem_append.mp hl with hmem | hnew
    · exfalso
      exact ha (List.any_eq_true.mpr ⟨l, hmem, by simp [h1, h2]⟩)
    · simp at hnew
      rw [hnew]

/-- C8 — linking a guardian is idempotent: starting from a table that
respects the unique constraint on `(student_id, guardian_id)`, any
non-empty sequence of link upserts for a pair leaves exactly one row for
that pair, whose `is_primary` is the most recent requested value. -/
theorem C8_link_guardian_idempotent (links : List SGLink) (sid gid : Nat)
    (ps : List Bool) (h : countPair links sid gid ≤ 1) (hne : ps ≠ []) :
    countPair (ps.foldl (fun L p => upsertLink L sid gid p) links) sid gid = 1 ∧
    (∀ pl, ps.getLast? = some pl →
      ∀ l ∈ ps.foldl (fun L p => upsertLink L sid gid p) links,
        l.student_id = sid → l.guardian_id = gid → l.is_primary = pl) := by
  induction ps generalizing links with
  | nil => exact absurd rfl hne
  | cons p ps ih =>
    cases ps with
    | nil =>
      refine ⟨countPair_upsertLink links sid gid p h, ?_⟩
      intro pl hpl l hl h1 h2
      injection hpl with hpl
      subst hpl
      exact upsertLink_is_primary links sid gid p l hl h1 h2
    | cons p2 ps2 =>
      have h1 : countPair (upsertLink links sid gid p) sid gid ≤ 1 := by
        rw [countPair_upsertLink links sid gid p h]
      have := ih (upsertLink links sid gid p) h1 (by simp)
      refine ⟨this.1, ?_⟩
      intro pl hpl
      exact this.2 pl (by rwa [List.getLast?_cons_cons] at hpl)

/-- Witness for C8: two successive upserts leave one row with the second
request's `is_primary`. -/
theorem C8_link_guardian_witness :
    countPair ([true, false].foldl
      (fun L p => upsertLink L 10 5 p) [] ) 10 5 = 1 ∧
    ∀ l ∈ [true, false].foldl (fun L p => upsertLink L 10 5 p) [],
      l.student_id = 10 → l.guardian_id = 5 → l.is_primary = false := by
  have h := C8_link_guardian_idempotent [] 10 5 [true, false] (by decide)
    (by decide)
  exact ⟨h.1, h.2 false (by decide)⟩

/-! ## Today stats (`getTodayStats` in `scanController.js`)

The SQL pulls today's non-duplicate `scan_event` rows (ascending by
`scanned_at`) with a `has_message` flag; the JavaScript loop counts
check-ins/outs, the non-SMS subsets, and the per-student latest scan
(a `Map` keyed by `student_id`, insertion-ordered). -/

structure StatsRow where
  student_id : Nat
  type : String
  scanned_at : Int
  has_message : Bool
  deriving Repr, DecidableEq

structure TodayStats where
  todayIn : Nat
  todayOut : Nat
  onCampusToday : Nat
  nonSmsIn : Nat
  nonSmsOut : Nat
  nonSmsTotal : Nat
  deriving Repr, DecidableEq

structure StatsAcc where
  todayIn : Nat
  todayOut : Nat
  nonSmsIn : Nat
  nonSmsOut : Nat
  latest : List (Nat × Int × String)
  deriving Repr, DecidableEq

/-- `latestByStudent.set` under `if (!prev || ts > prev.ts)`: a JavaScript
`Map` keyed by student id (insertion order preserved, set replaces in
place). -/
def statsUpd (m : List (Nat × Int × String)) (sid : Nat) (ts : Int)
    (ty : String) : List (Nat × Int × String) :=
  match m.find? (fun e => e.1 = sid) with
  | none => m ++ [(sid, ts, ty)]
  | some prev =>
    if ts > prev.2.1 then
      m.map (fun e => if e.1 = sid then (sid, ts, ty) else e)
    else m

/-- One iteration of the `for (const r of rows)` loop. -/
def statsStep (acc : StatsAcc) (r : StatsRow) : StatsAcc :=
  let ty := sToUpper r.type
  let acc1 :=
    if ty = "CHECK_IN" then
      { acc with
        todayIn := acc.todayIn + 1
        nonSmsIn := if r.has_message then acc.nonSmsIn else acc.nonSmsIn + 1 }
    else if ty = "CHECK_OUT" then
      { acc with
        todayOut := acc.todayOut + 1
        nonSmsOut := if r.has_message then acc.nonSmsOut else acc.nonSmsOut + 1 }
    else acc
  { acc1 with latest := statsUpd acc1.latest r.student_id r.scanned_at ty }

def getTodayStats (rows : List StatsRow) : TodayStats :=
  let acc := rows.foldl statsStep ⟨0, 0, 0, 0, []⟩
  { todayIn := acc.todayIn
    todayOut := acc.todayOut
    onCampusToday := (acc.latest.filter (fun e => e.2.2 = "CHECK_IN")).length
    nonSmsIn := acc.nonSmsIn
    nonSmsOut := acc.nonSmsOut
    nonSmsTotal := acc.nonSmsIn + acc.nonSmsOut }

/-! ### Lemmas about the stats fold -/

def campCount (m : List (Nat × Int × String)) : Nat :=
  (m.filter (fun e => e.2.2 = "CHECK_IN")).length

lemma map_set_of_not_mem (m : List (Nat × Int × String)) (sid : Nat)
    (ts : Int) (ty : String) (h : ∀ e ∈ m, e.1 ≠ sid) :
    m.map (fun e => if e.1 = sid then (sid, ts, ty) else e) = m := by
  induction m with
  | nil => rfl
  | cons a t ih =>
    rw [List.map_cons, if_neg (h a (List.mem_cons_self a t)),
      ih (fun e he => h e (List.mem_cons_of_mem a he))]

lemma campCount_map_set (m : List (Nat × Int × String)) (sid : Nat)
    (ts : Int) (ty : String) (hnd : (m.map Prod.fst).Nodup) :
    campCount (m.map (fun e => if e.1 = sid then (sid, ts, ty) else e)) ≤
      campCount m + (if ty = "CHECK_IN" then 1 else 0) := by
  induction m with
  | nil => simp [campCount]
  | cons a t ih =>
    rw [List.map_cons, List.nodup_cons] at hnd
    by_cases ha : a.1 = sid
    · have hrest : t.map (fun e => if e.1 = sid then (sid, ts, ty) else e) = t := by
        apply map_set_of_not_mem
        intro e he hesid
        apply hnd.1
        rw [ha, ← hesid]
        exact List.mem_map_of_mem Prod.fst he
      rw [List.map_cons, if_pos ha, hrest]
      unfold campCount
      by_cases hty : ty = "CHECK_IN" <;>
        by_cases haty : a.2.2 = "CHECK_IN" <;>
        simp [List.filter_cons, hty, haty]
    · rw [List.map_cons, if_neg ha]
      have := ih hnd.2
      unfold campCount at this ⊢
      by_cases haty : a.2.2 = "CHECK_IN" <;>
        simp [List.filter_cons, haty] <;> omega

lemma keys_map_set (m : List (Nat × Int × String)) (sid : Nat) (ts : Int)
    (ty : String) :
    (m.map (fun e => if e.1 = sid then (sid, ts, ty) else e)).map Prod.fst =
      m.map Prod.fst := by
  induction m with
  | nil => rfl
  | cons a t ih =>
    by_cases ha : a.1 = sid <;> simp [List.map_cons, ha, ih]

lemma statsUpd_inv (m : List (Nat × Int × String)) (sid : Nat) (ts : Int)
    (ty : String) (hnd : (m.map Prod.fst).Nodup) :
    campCount (statsUpd m sid ts ty) ≤
      campCount m + (if ty = "CHECK_IN" then 1 else 0) ∧
    ((statsUpd m sid ts ty).map Prod.fst).Nodup := by
  unfold statsUpd
  cases hf : m.find? (fun e => e.1 = sid) with
  | none =>
    constructor
    · unfold campCount
      by_cases hty : ty = "CHECK_IN" <;> simp [List.filter_append, hty]
    · have hnotin : sid ∉ m.map Prod.fst := by
        intro hmem
        rcases List.mem_map.mp hmem with ⟨e, he, heq⟩
        have := List.find?_eq_none.mp hf e he
        simp [heq] at this
      simp [List.map_append, List.nodup_append, hnotin, hnd]
  | some prev =>
    show (campCount (if ts > prev.2.1 then
        m.map (fun e => if e.1 = sid then (sid, ts, ty) else e) else m) ≤
      campCount m + (if ty = "CHECK_IN" then 1 else 0)) ∧
      ((if ts > prev.2.1 then
        m.map (fun e => if e.1 = sid then (sid, ts, ty) else e) else m).map
          Prod.fst).Nodup
    by_cases hts : ts > prev.2.1
    · rw [if_pos hts]
      exact ⟨campCount_map_set m sid ts ty hnd, by rw [keys_map_set]; exact hnd⟩
    · rw [if_neg hts]
      constructor
      · by_cases hty : ty = "CHECK_IN" <;> simp [hty]
      · exact hnd

lemma statsStep_proj (acc : StatsAcc) (r : StatsRow) :
    (statsStep acc r).latest =
      statsUpd acc.latest r.student_id r.scanned_at (sToUpper r.type) ∧
    (statsStep acc r).todayIn =
      acc.todayIn + (if sToUpper r.type = "CHECK_IN" then 1 else 0) := by
  unfold statsStep
  by_cases hin : sToUpper r.type = "CHECK_IN"
  · simp [hin]
  · by_cases hout : sToUpper r.type = "CHECK_OUT" <;> simp [hin, hout]

lemma statsStep_inv (acc : StatsAcc) (r : StatsRow)
    (h1 : campCount acc.latest ≤ acc.todayIn)
    (h2 : (acc.latest.map Prod.fst).Nodup) :
    campCount (statsStep acc r).latest ≤ (statsStep acc r).todayIn ∧
    ((statsStep acc r).latest.map Prod.fst).Nodup := by
  obtain ⟨hl, hti⟩ := statsStep_proj acc r
  have h := statsUpd_inv acc.latest r.student_id r.scanned_at (sToUpper r.type) h2
  rw [hl, hti]
  refine ⟨?_, h.2⟩
  have hb := h.1
  by_cases hin : sToUpper r.type = "CHECK_IN" <;> simp [hin] at hb ⊢ <;> omega

lemma stats_fold_inv (rows : List StatsRow) :
    ∀ acc : StatsAcc, campCount acc.latest ≤ acc.todayIn →
      (acc.latest.map Prod.fst).Nodup →
      campCount (rows.foldl statsStep acc).latest ≤
        (rows.foldl statsStep acc).todayIn := by
  induction rows with
  | nil => intro acc h1 _; exact h1
  | cons r rows ih =>
    intro acc h1 h2
    have h := statsStep_inv acc r h1 h2
    exact ih (statsStep acc r) h.1 h.2

/-- C10 — the `GET /scan/stats/today` response satisfies
`nonSmsTotal = nonSmsIn + nonSmsOut`, and the number of students whose
latest non-duplicate scan today is a check-in never exceeds the count of
today's non-duplicate check-in rows. -/
theorem C10_today_stats (rows : List StatsRow) :
    (getTodayStats rows).nonSmsTotal =
      (getTodayStats rows).nonSmsIn + (getTodayStats rows).nonSmsOut ∧
    (getTodayStats rows).onCampusToday ≤ (getTodayStats rows).todayIn := by
  refine ⟨rfl, ?_⟩
  exact stats_fold_inv rows ⟨0, 0, 0, 0, []⟩ (by simp [campCount]) (by simp)

/-! ## Concrete fixtures for witnesses and counterexamples -/

def clockEx : Clock :=
  { dayOf := fun _ t => t / 86400000
    fmtDateTime := fun tz t => tz ++ "@" ++ toString t
    fmtDate := fun _ t => "date:" ++ toString t
    fmtTime := fun _ t => "time:" ++ toString t }

def gwOk : List SmsItem → Option (List GwMsg) :=
  fun items => some (items.map (fun i =>
    { toPhone := i.toPhone, message_id := "m1", status := "SUCCESS" }))

def qrEx : QrRow := { id := 1, student_id := 10, token := "tokA", active := true }

def studentEx : Student :=
  { id := 10, first_name := "Ada", last_name := "Lovelace", status := "ACTIVE" }

def guardianEx : Guardian :=
  { id := 5, phone_e164 := "+61436536668", active := true, phone_valid := true }

def dbEx : DB :=
  { settings :=
      { centerName := "Kumon"
        timezone := "Australia/Hobart"
        smsPolicy := { sendOnCheckIn := true, sendOnCheckOut := true } }
    qr_codes := [qrEx]
    students := [studentEx]
    scan_events := []
    guardians := [guardianEx]
    student_guardian := [{ student_id := 10, guardian_id := 5, is_primary := true }]
    message_templates := []
    message_logs := []
    message_recipients := []
    nextScanId := 100
    nextMessageLogId := 200 }

def reqIn : ScanRequest :=
  { qrCode := "tokA", type := "CHECK_IN", messageOverride := none,
    recheck := false, headcountOnly := false }

def nowEx : Int := 86460000

/-- A check-in earlier on the same local day as `nowEx`. -/
def evMorning : ScanEvent :=
  { id := 50, student_id := 10, qr_code_id := 1, type := "CHECK_IN",
    scanned_by := none, scanned_at := 86410000, was_duplicate := false,
    meta := { recheck := false, headcountOnly := false } }

/-- A check-in 90 seconds before `nowEx` but on the previous local day. -/
def evLateYesterday : ScanEvent :=
  { id := 51, student_id := 10, qr_code_id := 1, type := "CHECK_IN",
    scanned_by := none, scanned_at := 86370000, was_duplicate := false,
    meta := { recheck := false, headcountOnly := false } }

def dbToday : DB := { dbEx with scan_events := [evMorning] }

def dbYesterday : DB := { dbEx with scan_events := [evLateYesterday] }

def dbInactive : DB :=
  { dbEx with students := [{ studentEx with status := "INACTIVE" }] }

def reqBadToken : ScanRequest := { reqIn with qrCode := "nope" }

def reqHc : ScanRequest := { reqIn with headcountOnly := true }

/-- C1 — counterexample to the claim as stated: the same-day guard runs
before the 2-minute duplicate check, so with the most recent same-type
scan 50 seconds old (and on today's local date) and `recheck` false, the
code answers 409 and records nothing, instead of recording a
`was_duplicate` scan with `sent = 0`. -/
theorem C1_duplicate_scan_counterexample :
    reqIn.recheck = false ∧
    resolveQr dbToday reqIn.qrCode = some (qrEx, studentEx) ∧
    studentEx.status = "ACTIVE" ∧
    lastScanOfType dbToday 10 "CHECK_IN" = some evMorning ∧
    withinMinutes nowEx evMorning.scanned_at 2 = true ∧
    handleScan dbToday reqIn nowEx clockEx gwOk none =
      (.conflict "already_checked_in_today"
        (clockEx.fmtDateTime "Australia/Hobart" evMorning.scanned_at),
       dbToday, []) := by
  refine ⟨rfl, by decide, rfl, by decide, by decide, ?_⟩
  decide

/-- Witness for the amended C1 at a concrete state: the recent same-type
scan is on the previous local day, so the duplicate path fires. -/
theorem C1_duplicate_scan_witness :
    handleScan dbYesterday reqIn nowEx clockEx gwOk none =
      (.okDuplicate dbYesterday.nextScanId 0 [] reqIn.headcountOnly,
        { dbYesterday with
          scan_events := dbYesterday.scan_events ++
            [{ id := dbYesterday.nextScanId
               student_id := qrEx.student_id
               qr_code_id := qrEx.id
               type := sToUpper reqIn.type
               scanned_by := none
               scanned_at := nowEx
               was_duplicate := true
               meta := { recheck := false, headcountOnly := reqIn.headcountOnly } }]
          nextScanId := dbYesterday.nextScanId + 1 }, []) :=
  C1_duplicate_scan dbYesterday reqIn nowEx clockEx gwOk none qrEx studentEx
    evLateYesterday (by decide) (Or.inl (by decide)) (by decide) (by decide)
    rfl (by decide) (by decide) (by decide)

/-- Witness for C2: a same-type scan already exists today, so the scan is
rejected with 409 and the state is unchanged. -/
theorem C2_same_day_guard_witness :
    handleScan dbToday reqIn nowEx clockEx gwOk none =
      (.conflict
        (if sToUpper reqIn.type = "CHECK_IN" then "already_checked_in_today"
         else "already_checked_out_today")
        (clockEx.fmtDateTime dbToday.settings.timezone evMorning.scanned_at),
       dbToday, []) :=
  (C2_same_day_guard dbToday reqIn nowEx clockEx gwOk none qrEx studentEx
    (by decide) (Or.inl (by decide)) (by decide) (by decide)).1 evMorning rfl
    (by decide)

/-- Witness for C3: an unknown token gives 404 and an inactive student
gives 400, in both cases without touching the database. -/
theorem C3_qr_resolution_witness :
    handleScan dbEx reqBadToken nowEx clockEx gwOk none =
      (.notFound "QR code not found or inactive", dbEx, []) ∧
    handleScan dbInactive reqIn nowEx clockEx gwOk none =
      (.badRequest "Student is inactive", dbInactive, []) :=
  ⟨(C3_qr_resolution dbEx reqBadToken nowEx clockEx gwOk none (by decide)
      (Or.inl (by decide))).1 (by decide),
   (C3_qr_resolution dbInactive reqIn nowEx clockEx gwOk none (by decide)
      (Or.inl (by decide))).2 qrEx { studentEx with status := "INACTIVE" }
      (by decide) (by decide)⟩

/-- Witness for C4 at a concrete state with one eligible guardian. -/
theorem C4_recipient_rows_witness :
    (handleScan dbEx reqIn nowEx clockEx gwOk none).1.recipientsOf =
      (eligibleGuardians dbEx 10).map (fun g => g.phone_e164) ∧
    (handleScan dbEx reqIn nowEx clockEx gwOk none).2.1.message_recipients =
      dbEx.message_recipients ++
        (eligibleGuardians dbEx 10).map
          (recipientRowFor dbEx.nextMessageLogId
            ((gwOk (scanSmsItems dbEx studentEx 10 (sToUpper reqIn.type) reqIn
              nowEx clockEx)).getD [])) :=
  have h := C4_recipient_rows dbEx reqIn nowEx clockEx gwOk none qrEx studentEx
    (by decide) (Or.inl (by decide)) (by decide) (by decide)
    (Or.inr (by decide)) (by decide) (by decide)
  ⟨h.1, h.2.1⟩

/-- Witness for C6: a headcount-only scan is recorded but no message is
logged and no gateway call is made, although the policy allows check-in
SMS. -/
theorem C6_headcount_only_witness :
    dbEx.settings.smsPolicy.sendOnCheckIn = true ∧
    handleScan dbEx reqHc nowEx clockEx gwOk none =
      (.okNoSms dbEx.nextScanId [] 0 false true,
        { dbEx with
          scan_events := dbEx.scan_events ++
            [{ id := dbEx.nextScanId
               student_id := qrEx.student_id
               qr_code_id := qrEx.id
               type := sToUpper reqHc.type
               scanned_by := none
               scanned_at := nowEx
               was_duplicate := false
               meta := { recheck := reqHc.recheck, headcountOnly := true } }]
          nextScanId := dbEx.nextScanId + 1 }, []) :=
  ⟨rfl,
    C6_headcount_only dbEx reqHc nowEx clockEx gwOk none qrEx studentEx
      (by decide) (Or.inl (by decide)) (by decide) (by decide) rfl
      (Or.inr (by decide)) (by decide)⟩

end KumonSpec
